import Mathlib

/-!
Shallow embedding of `homport.py`, a convenience layer over the Houdini
scripting object model (`hou`).  The host session is external state; every
operation of homport is modelled as a pure function that returns the list of
host-API calls it performs (`Effect`), together with the post-states of the
wrapper objects it touches.  Host data (a node's children, parameters,
parameter tuples and python attributes; a node's input-connection list; the
relative-path function) is passed in as explicit arguments, since homport
only reads it through host calls.
-/

/-- A host (Houdini) node as seen through the attribute surface homport
reads: its identity, the names `dir(node)` exposes (python attributes and
methods), the names of its child nodes, of its parameters and of its
parameter tuples.  `getattr(node, name)` succeeds exactly when `name` is in
`dir(node)`. -/
structure HouNode where
  id : Nat
  dirAttrs : List String
  children : List String
  parms : List String
  parmTuples : List String
deriving DecidableEq, Repr

/-- The state a `NodeWrap` object carries (`NodeWrap.__init__`): the wrapped
host node `self.node` and the scratch input index `self._idx`. -/
structure Wrap where
  node : HouNode
  idx : Nat
deriving DecidableEq, Repr

/-- `NodeWrap.__init__`: raises `NodeWrapError('Invalid node given.')` when
the given node is falsy (`None`), otherwise stores it and sets `_idx` to
0. -/
def NodeWrap.mk? (node : Option HouNode) : Except String Wrap :=
  match node with
  | none => Except.error "Invalid node given."
  | some n => Except.ok { node := n, idx := 0 }

/-- The tuple `inputs = ('input_one', 'input_two', 'input_three',
'input_four')` in `NodeWrap.__getattr__`. -/
def inputNames : List String :=
  ["input_one", "input_two", "input_three", "input_four"]

/-- The possible results of `NodeWrap.__getattr__`: the wrapper itself (for
the `input_N` names), a raw python attribute of the host node, a wrapped
child node, a wrapped parameter, a wrapped parameter tuple, or a raised
`AttributeError`. -/
inductive GetAttrResult where
  | selfWrap (w : Wrap)
  | hostAttr (name : String)
  | childWrap (name : String)
  | parmWrap (name : String)
  | parmTupleWrap (name : String)
  | attrError (msg : String)
deriving DecidableEq, Repr

/-- `NodeWrap.__getattr__`.  Returns the looked-up value together with the
post-state of the wrapper (the `input_N` branch mutates `self._idx` and
returns `self`).  The error messages abbreviate the source's formatting. -/
def NodeWrap.getattr (w : Wrap) (name : String) : GetAttrResult × Wrap :=
  if name ∈ inputNames then
    -- self._idx = inputs.index(name); return self
    let w2 := { w with idx := inputNames.indexOf name }
    (GetAttrResult.selfWrap w2, w2)
  else if name ∈ w.node.dirAttrs then
    -- if name in dir(self.node): return getattr(self.node, name)
    (GetAttrResult.hostAttr name, w)
  else
    let childNode : Option String :=
      if name ∈ w.node.children then some name else none
    let parm : Option String :=
      if name ∈ w.node.parms then some name else none
    -- parmTuple is looked up only when no parm was found
    let parmTuple : Option String :=
      if parm.isSome then none
      else if name ∈ w.node.parmTuples then some name else none
    -- attribute = getattr(self.node, name) inside try/except AttributeError:
    -- it can only succeed when name is in dir(self.node), a case already
    -- returned above, so this is always None here.
    let pyAttr : Option String :=
      if name ∈ w.node.dirAttrs then some name else none
    let attribs : List GetAttrResult :=
      (childNode.map GetAttrResult.childWrap).toList
        ++ (parm.map GetAttrResult.parmWrap).toList
        ++ (parmTuple.map GetAttrResult.parmTupleWrap).toList
        ++ (pyAttr.map GetAttrResult.hostAttr).toList
    match attribs with
    | [] =>
      (GetAttrResult.attrError
        ("Node object has no Node, parm, parmTuple or python attr called "
          ++ name), w)
    | [a] => (a, w)
    | _ => (GetAttrResult.attrError (name ++ " is an ambiguous name"), w)

/-- What `NodeWrap.__setattr__` does with the assigned value: store it on the
wrapper object (`object.__setattr__(self, name, value)`), delegate to the
host parameter's `set` (`attr.parm.set(value)`), fall through to
`object.__setattr__(self, attr, value)` for a non-parm resolution, or
propagate the `AttributeError` raised by `__getattr__`. -/
inductive SetAttrOutcome (V : Type) where
  | storeField (name : String) (v : V)
  | hostParmSet (pname : String) (v : V)
  | storeOnObject (target : GetAttrResult) (v : V)
  | raiseAttrError (msg : String)
deriving DecidableEq, Repr

/-- `NodeWrap.__setattr__`: the reserved names `node` and `_idx` are stored
on the wrapper itself; any other name is resolved through `__getattr__`, and
when the resolution is a `ParmWrap` the value is passed to the host
parameter's `set`. -/
def NodeWrap.setattr {V : Type} (w : Wrap) (name : String) (value : V) :
    SetAttrOutcome V × Wrap :=
  if name = "node" ∨ name = "_idx" then
    (SetAttrOutcome.storeField name value, w)
  else
    match NodeWrap.getattr w name with
    | (GetAttrResult.parmWrap p, w2) => (SetAttrOutcome.hostParmSet p value, w2)
    | (GetAttrResult.attrError m, w2) => (SetAttrOutcome.raiseAttrError m, w2)
    | (r, w2) => (SetAttrOutcome.storeOnObject r value, w2)

/-- A host parameter as `ParmWrap.__rshift__` reads it: its name, the id of
the node that owns it (`parm.node()`), and the name of its parameter
template's type (`parm.parmTemplate().type().name()`). -/
structure Parm where
  pname : String
  owner : Nat
  templateTypeName : String
deriving DecidableEq, Repr

/-- A host-API call performed by homport: `node.setInput(inputIndex, src)`
on the node `dst` (with `src = none` for a disconnection), or
`parm.setExpression(expr)` on the parameter `target`. -/
inductive Effect where
  | setInput (dst : Nat) (inputIndex : Nat) (src : Option Nat)
  | setExpression (target : Parm) (expr : String)
deriving DecidableEq, Repr

/-- The right-hand operand of `NodeWrap.__rshift__` / `__lshift__`: either
already a `NodeWrap` (the `isinstance` branch) or a raw value that the code
tries to wrap with `NodeWrap(object)`. -/
inductive RhsObject where
  | alreadyWrapped (w : Wrap)
  | raw (n : Option HouNode)

/-- `NodeWrap.__rshift__` (`a >> obj`): wraps the operand if needed, then
performs `node.setInput(node._idx, self.node)` on the right-hand node.
(`node.setInput` resolves through `__getattr__` to the host node's bound
`setInput`, since `setInput` is in `dir` of every host node.)  Returns the
post-states of both wrappers and the emitted host call. -/
def NodeWrap.rshift (self : Wrap) (obj : RhsObject) :
    Except String (Wrap × Wrap × List Effect) :=
  match obj with
  | RhsObject.alreadyWrapped w =>
    Except.ok (self, w, [Effect.setInput w.node.id w.idx (some self.node.id)])
  | RhsObject.raw r =>
    match NodeWrap.mk? r with
    | Except.error _ => Except.error "NodeWrapError"
    | Except.ok w =>
      Except.ok (self, w, [Effect.setInput w.node.id w.idx (some self.node.id)])

/-- `NodeWrap.__lshift__` (`a << obj`): wraps the operand if needed, then
performs `self.node.setInput(self._idx, node.node)` on the left-hand
node. -/
def NodeWrap.lshift (self : Wrap) (obj : RhsObject) :
    Except String (Wrap × Wrap × List Effect) :=
  match obj with
  | RhsObject.alreadyWrapped w =>
    Except.ok (self, w, [Effect.setInput self.node.id self.idx (some w.node.id)])
  | RhsObject.raw r =>
    match NodeWrap.mk? r with
    | Except.error _ => Except.error "NodeWrapError"
    | Except.ok w =>
      Except.ok (self, w, [Effect.setInput self.node.id self.idx (some w.node.id)])

/-- `NodeWrap.__floordiv__` (`a // obj`).  `conns` is the list of source-node
ids that the host call `obj.inputConnections()` returns (the code reads each
entry with `conn.inputNode()`).  When the list is too short the method
returns with no host call; when the entry at `obj._idx` is `self.node` it
emits `setInput(obj._idx, None)`; otherwise it raises `NodeWrapError`. -/
def NodeWrap.floordiv (self : Wrap) (obj : Wrap) (conns : List Nat) :
    Except String (Wrap × Wrap × List Effect) :=
  if conns.length ≤ obj.idx then
    Except.ok (self, obj, [])
  else
    match conns[obj.idx]? with
    | none => Except.ok (self, obj, [])   -- unreachable: guarded by the length test
    | some conn =>
      if conn ≠ self.node.id then
        Except.error "Input node is incorrect"
      else
        Except.ok (self, obj, [Effect.setInput obj.node.id obj.idx none])

/-- The methods the class `NodeWrap` defines, read off its class body. -/
def nodeWrapMethodNames : List String :=
  ["__init__", "createNode", "__getattr__", "__setattr__", "__rshift__",
   "__lshift__", "__floordiv__", "__repr__", "__str__"]

/-- Python's unary minus on a `NodeWrap` instance: implicit dunder lookup
finds `__neg__` on the class (bypassing `__getattr__`), so `-n` raises
`TypeError` whenever `NodeWrap` does not define `__neg__`.  The `ok` branch
is dead code: `nodeWrapMethodNames` contains no `__neg__`. -/
def NodeWrap.neg (w : Wrap) : Except String Wrap :=
  if "__neg__" ∈ nodeWrapMethodNames then
    Except.ok w
  else
    Except.error "TypeError: bad operand type for unary -: NodeWrap"

/-- `ParmWrap.__rshift__` (`p >> q`): computes the relative path from `p`'s
node to `q`'s node (`cur_node.relativePathTo(to_node)`), chooses `chs` when
`p`'s parameter template type is named `String` and `ch` otherwise, and sets
the expression `ch("<rel_path>/<q name>")` on `p`.  (`object.node()` and
`object.name()` resolve through `ParmWrap.__getattr__` to the host
parameter's methods.)  `relativePathTo` is the host's path function, passed
in by node id. -/
def ParmWrap.rshift (relativePathTo : Nat → Nat → String) (p : Parm)
    (q : Parm) : List Effect :=
  let rel_path := relativePathTo p.owner q.owner
  let rel_reference := if p.templateTypeName = "String" then "chs" else "ch"
  [Effect.setExpression p
    (rel_reference ++ "(\"" ++ rel_path ++ "/" ++ q.pname ++ "\")")]

/-- `ParmWrap.__lshift__`: `raise NotImplementedError`, whatever the
operand. -/
def ParmWrap.lshift {A : Type} (_self : Parm) (_obj : A) :
    Except String (List Effect) :=
  Except.error "NotImplementedError"

/-- A host parameter tuple as homport holds it: the parameters it groups. -/
structure ParmTuple where
  tupleParms : List Parm
deriving DecidableEq, Repr

/-- `ParmTupleWrap.__lshift__`: `raise NotImplementedError`, whatever the
operand. -/
def ParmTupleWrap.lshift {A : Type} (_self : ParmTuple) (_obj : A) :
    Except String (List Effect) :=
  Except.error "NotImplementedError"

/-- The function stored in the host attribute `hou.node`: either the host's
original lookup (`base`) or the `_wrap_node` closure installed by `on()`. -/
inductive HouFn where
  | base
  | wrapNode
deriving DecidableEq, Repr

/-- The slice of the `hou` module state that `on()`/`off()` read and write:
the attribute `hou.node` and the saved attribute `hou.__node` (absent when
`savedNode = none`, i.e. `hasattr(hou, "__node")` is false). -/
structure HouState where
  node : HouFn
  savedNode : Option HouFn
deriving DecidableEq, Repr

/-- `on()` (named `homportOn` here because `on` is reserved in Lean): when
`hou.__node` is absent, saves `hou.node` into `hou.__node` and replaces
`hou.node` by `_wrap_node`; when `hou.__node` is already present it does
nothing. -/
def homportOn (s : HouState) : HouState :=
  if s.savedNode.isSome then s
  else { node := HouFn.wrapNode, savedNode := some s.node }

/-- `off()`: restores `hou.node` from `hou.__node` and deletes `hou.__node`;
when `hou.__node` is absent the `AttributeError` is caught and nothing
happens. -/
def homportOff (s : HouState) : HouState :=
  match s.savedNode with
  | some f => { node := f, savedNode := none }
  | none => s

/-- What calling the function stored in `hou.node` yields: the raw host
lookup result, or a `NodeWrap` of it. -/
inductive CallResult where
  | rawNode (n : Option HouNode)
  | wrappedNode (w : Except String Wrap)
deriving Repr

/-- Calling the function stored in `hou.node` on a path.  `lookup` is the
host's original node lookup.  `_wrap_node` calls `hou.__node` — which under
the `on()`/`off()` discipline is the original lookup — and wraps the result
in a `NodeWrap`. -/
def HouFn.call (lookup : String → Option HouNode) :
    HouFn → String → CallResult
  | HouFn.base, p => CallResult.rawNode (lookup p)
  | HouFn.wrapNode, p => CallResult.wrappedNode (NodeWrap.mk? (lookup p))

/-- The candidate count named by the spec's linear disambiguation rule: how
many of child node, parameter, parameter tuple and python attribute match
the requested name.  This follows the spec's words, for comparison with
`NodeWrap.getattr`. -/
def specCandidateCount (n : HouNode) (name : String) : Nat :=
  (if name ∈ n.children then 1 else 0) + (if name ∈ n.parms then 1 else 0)
    + (if name ∈ n.parmTuples then 1 else 0)
    + (if name ∈ n.dirAttrs then 1 else 0)

/-- A sample host node with no children, parameters, tuples or attributes. -/
def sampleNodeA : HouNode :=
  { id := 21, dirAttrs := [], children := [], parms := [], parmTuples := [] }

/-- A second sample host node, distinct from `sampleNodeA`. -/
def sampleNodeB : HouNode :=
  { id := 22, dirAttrs := [], children := [], parms := [], parmTuples := [] }

/-- A sample host node carrying one parameter, `tx`. -/
def sampleNodeTx : HouNode :=
  { id := 23, dirAttrs := [], children := [], parms := ["tx"], parmTuples := [] }

/-- A host node on which the name `path` is both a python attribute (every
host node has the method `path`) and the name of a child node (`path` is a
legal node name). -/
def ambNode : HouNode :=
  { id := 24, dirAttrs := ["path"], children := ["path"], parms := [], parmTuples := [] }

/-- C1, counterexample: on `ambNode` the name `path` matches two of the four
candidate kinds (child node and python attribute), yet `__getattr__` returns
the python attribute instead of raising `AttributeError`, because the
`name in dir(self.node)` branch returns before the disambiguation count. -/
theorem c1_counterexample :
    specCandidateCount ambNode "path" = 2 ∧
    (NodeWrap.getattr { node := ambNode, idx := 0 } "path").1
      = GetAttrResult.hostAttr "path" :=
  ⟨rfl, rfl⟩

/-- C1, amended: for a name outside `input_one..input_four`, a python
attribute in `dir(self.node)` is returned immediately, even when a child or
parameter shares the name; otherwise the candidates are the child node, the
parameter, and — only when no parameter matched — the parameter tuple: the
lookup returns the unique candidate wrapped, and raises `AttributeError`
both when none matches and when more than one matches. -/
theorem c1_getattr_disambiguation (w : Wrap) (name : String)
    (hin : name ∉ inputNames) :
    (name ∈ w.node.dirAttrs →
      NodeWrap.getattr w name = (GetAttrResult.hostAttr name, w)) ∧
    (name ∉ w.node.dirAttrs →
      ((name ∉ w.node.children ∧ name ∉ w.node.parms ∧ name ∉ w.node.parmTuples →
        ∃ m, NodeWrap.getattr w name = (GetAttrResult.attrError m, w)) ∧
      (name ∈ w.node.children ∧ name ∉ w.node.parms ∧ name ∉ w.node.parmTuples →
        NodeWrap.getattr w name = (GetAttrResult.childWrap name, w)) ∧
      (name ∉ w.node.children ∧ name ∈ w.node.parms →
        NodeWrap.getattr w name = (GetAttrResult.parmWrap name, w)) ∧
      (name ∉ w.node.children ∧ name ∉ w.node.parms ∧ name ∈ w.node.parmTuples →
        NodeWrap.getattr w name = (GetAttrResult.parmTupleWrap name, w)) ∧
      (name ∈ w.node.children ∧ (name ∈ w.node.parms ∨ name ∈ w.node.parmTuples) →
        ∃ m, NodeWrap.getattr w name = (GetAttrResult.attrError m, w)))) := by
  refine ⟨?_, ?_⟩
  · intro hdir
    simp [NodeWrap.getattr, hin, hdir]
  · intro hdir
    refine ⟨?_, ?_, ?_, ?_, ?_⟩
    · rintro ⟨hc, hp, ht⟩
      refine ⟨"Node object has no Node, parm, parmTuple or python attr called "
        ++ name, ?_⟩
      simp [NodeWrap.getattr, hin, hdir, hc, hp, ht]
    · rintro ⟨hc, hp, ht⟩
      simp [NodeWrap.getattr, hin, hdir, hc, hp, ht]
    · rintro ⟨hc, hp⟩
      simp [NodeWrap.getattr, hin, hdir, hc, hp]
    · rintro ⟨hc, hp, ht⟩
      simp [NodeWrap.getattr, hin, hdir, hc, hp, ht]
    · rintro ⟨hc, hpt⟩
      by_cases hp : name ∈ w.node.parms
      · refine ⟨name ++ " is an ambiguous name", ?_⟩
        simp [NodeWrap.getattr, hin, hdir, hc, hp]
      · rcases hpt with hp2 | ht
        · exact absurd hp2 hp
        · refine ⟨name ++ " is an ambiguous name", ?_⟩
          simp [NodeWrap.getattr, hin, hdir, hc, hp, ht]

/-- C1, witness for the amended theorem: looking up `tx` on a wrapper of
`sampleNodeTx` returns the wrapped parameter. -/
theorem c1_getattr_disambiguation_witness :
    NodeWrap.getattr { node := sampleNodeTx, idx := 0 } "tx"
      = (GetAttrResult.parmWrap "tx", { node := sampleNodeTx, idx := 0 }) :=
  ((c1_getattr_disambiguation { node := sampleNodeTx, idx := 0 } "tx"
      (by decide)).2 (by decide)).2.2.1 ⟨by decide, by decide⟩

/-- C2: `a >> b` emits exactly the host call `setInput(b._idx, a.node)` on
`b`'s underlying node, with `a`'s underlying node as the source; a freshly
wrapped node has scratch index 0, and an `input_two` access sets it to 1, so
`a >> b` on a fresh `b` targets the first input and `a >> b.input_two` the
second. -/
theorem c2_rshift_connects (a b : Wrap) :
    NodeWrap.rshift a (RhsObject.alreadyWrapped b)
      = Except.ok (a, b, [Effect.setInput b.node.id b.idx (some a.node.id)]) ∧
    (∀ n w, NodeWrap.mk? (some n) = Except.ok w → w.idx = 0) ∧
    ((NodeWrap.getattr b "input_two").2).idx = 1 := by
  refine ⟨rfl, ?_, rfl⟩
  intro n w h
  simp [NodeWrap.mk?] at h
  rw [← h]

/-- C2, witness: a wrapper freshly built by `NodeWrap.__init__` from
`sampleNodeB` has scratch index 0. -/
theorem c2_rshift_connects_witness :
    ({ node := sampleNodeB, idx := 0 } : Wrap).idx = 0 :=
  (c2_rshift_connects { node := sampleNodeA, idx := 0 }
    { node := sampleNodeB, idx := 0 }).2.1 sampleNodeB
    { node := sampleNodeB, idx := 0 } rfl

/-- C3: on a node wrapper, assigning to a name that `__getattr__` resolves
to a `ParmWrap` delegates to the host parameter's `set` with the assigned
value, while assignments to the reserved names `node` and `_idx` are stored
on the wrapper object itself and touch no host parameter. -/
theorem c3_setattr_parm_delegates {V : Type} (w : Wrap) (name : String)
    (v : V) (p : String)
    (h : (NodeWrap.getattr w name).1 = GetAttrResult.parmWrap p) :
    ((name ≠ "node" ∧ name ≠ "_idx") →
      (NodeWrap.setattr w name v).1 = SetAttrOutcome.hostParmSet p v) ∧
    NodeWrap.setattr w "node" v = (SetAttrOutcome.storeField "node" v, w) ∧
    NodeWrap.setattr w "_idx" v = (SetAttrOutcome.storeField "_idx" v, w) := by
  refine ⟨?_, rfl, rfl⟩
  rintro ⟨h1, h2⟩
  rcases hg : NodeWrap.getattr w name with ⟨r, w2⟩
  rw [hg] at h
  simp only at h
  subst h
  simp [NodeWrap.setattr, hg, h1, h2]

/-- C3, witness: `node.tx = 5` on a wrapper of `sampleNodeTx` becomes
`parm('tx').set(5)`. -/
theorem c3_setattr_parm_delegates_witness :
    (NodeWrap.setattr { node := sampleNodeTx, idx := 0 } "tx" (5 : Int)).1
      = SetAttrOutcome.hostParmSet "tx" (5 : Int) :=
  (c3_setattr_parm_delegates { node := sampleNodeTx, idx := 0 } "tx" (5 : Int)
    "tx" (by decide)).1 ⟨by decide, by decide⟩

/-- C4: `p >> q` on parameter wrappers sets on `p` (and only on `p`) the
expression `ch("<relative path from p's node to q's node>/<q's name>")`,
with `chs` in place of `ch` exactly when `p`'s parameter template type is
named `String`. -/
theorem c4_parm_link_expression (relativePathTo : Nat → Nat → String)
    (p q : Parm) :
    ParmWrap.rshift relativePathTo p q
      = [Effect.setExpression p
          ((if p.templateTypeName = "String" then "chs" else "ch")
            ++ "(\"" ++ relativePathTo p.owner q.owner ++ "/"
            ++ q.pname ++ "\")")] :=
  rfl

/-- C5: `a // b` returns with no host call when `b`'s input-connection list
is shorter than `b`'s scratch index requires; disconnects (`setInput(idx,
None)`) when the connection at that index comes from `a`'s node; and raises
`NodeWrapError` — emitting no host call — when it comes from any other
node. -/
theorem c5_floordiv_cases (a b : Wrap) (conns : List Nat) :
    (conns.length ≤ b.idx →
      NodeWrap.floordiv a b conns = Except.ok (a, b, [])) ∧
    (∀ h : b.idx < conns.length,
      (conns.get ⟨b.idx, h⟩ = a.node.id →
        NodeWrap.floordiv a b conns
          = Except.ok (a, b, [Effect.setInput b.node.id b.idx none])) ∧
      (conns.get ⟨b.idx, h⟩ ≠ a.node.id →
        NodeWrap.floordiv a b conns
          = Except.error "Input node is incorrect")) := by
  constructor
  · intro h
    simp [NodeWrap.floordiv, h]
  · intro h
    have hlen : ¬ conns.length ≤ b.idx := not_le.mpr h
    have hget : conns[b.idx]? = some (conns.get ⟨b.idx, h⟩) := by
      simp [List.getElem?_eq_getElem h, List.get_eq_getElem]
    constructor
    · intro he
      rw [List.get_eq_getElem] at he
      simp [NodeWrap.floordiv, hlen, hget, he]
    · intro hne
      rw [List.get_eq_getElem] at hne
      simp [NodeWrap.floordiv, hlen, hget, hne]

/-- C5, witness: with an empty connection list `a // b` is a no-op; with the
connection at index 0 coming from `a`'s node it disconnects; with it coming
from node 99 it raises. -/
theorem c5_floordiv_cases_witness :
    NodeWrap.floordiv { node := sampleNodeA, idx := 0 }
        { node := sampleNodeB, idx := 0 } []
      = Except.ok ({ node := sampleNodeA, idx := 0 },
          { node := sampleNodeB, idx := 0 }, []) ∧
    NodeWrap.floordiv { node := sampleNodeA, idx := 0 }
        { node := sampleNodeB, idx := 0 } [21]
      = Except.ok ({ node := sampleNodeA, idx := 0 },
          { node := sampleNodeB, idx := 0 }, [Effect.setInput 22 0 none]) ∧
    NodeWrap.floordiv { node := sampleNodeA, idx := 0 }
        { node := sampleNodeB, idx := 0 } [99]
      = Except.error "Input node is incorrect" :=
  ⟨(c5_floordiv_cases { node := sampleNodeA, idx := 0 }
      { node := sampleNodeB, idx := 0 } []).1 (by decide),
   ((c5_floordiv_cases { node := sampleNodeA, idx := 0 }
      { node := sampleNodeB, idx := 0 } [21]).2 (by decide)).1 (by decide),
   ((c5_floordiv_cases { node := sampleNodeA, idx := 0 }
      { node := sampleNodeB, idx := 0 } [99]).2 (by decide)).2 (by decide)⟩

/-- C6: the class `NodeWrap` defines no `__neg__` method, so Python's unary
minus on a node wrapper raises `TypeError` instead of returning the parent
node that the module docstring and `testGetParent` expect. -/
theorem c6_neg_not_defined :
    nodeWrapMethodNames.contains "__neg__" = false ∧
    NodeWrap.neg { node := sampleNodeA, idx := 0 }
      = Except.error "TypeError: bad operand type for unary -: NodeWrap" :=
  ⟨by decide, rfl⟩

/-- C7: `a << b` is the mirror of the right-shift connection: it emits
exactly the host call `setInput(a._idx, b.node)` on `a`'s underlying node,
with `b`'s underlying node as the source, and both wrappers' states — in
particular `b`'s — are unchanged. -/
theorem c7_lshift_mirror (a b : Wrap) :
    NodeWrap.lshift a (RhsObject.alreadyWrapped b)
      = Except.ok (a, b, [Effect.setInput a.node.id a.idx (some b.node.id)]) :=
  rfl

/-- C8: `on()` on an unpatched session saves `hou.node` and replaces it by
the wrapper, which returns `NodeWrap` objects of the original lookup's
results; a second `on()` while patched changes nothing; `off()` restores the
saved function; `off()` without a prior `on()` is a no-op; and `on()`
followed by `off()` round-trips the whole state. -/
theorem c8_on_off_roundtrip (s : HouState)
    (lookup : String → Option HouNode) (path : String) :
    (s.savedNode = none →
      homportOn s = { node := HouFn.wrapNode, savedNode := some s.node } ∧
      HouFn.call lookup (homportOn s).node path
        = CallResult.wrappedNode (NodeWrap.mk? (lookup path))) ∧
    (∀ f, s.savedNode = some f → homportOn s = s) ∧
    (∀ f, s.savedNode = some f →
      homportOff s = { node := f, savedNode := none }) ∧
    (s.savedNode = none → homportOff s = s) ∧
    (s.savedNode = none → homportOff (homportOn s) = s) := by
  refine ⟨?_, ?_, ?_, ?_, ?_⟩
  · intro h
    have hOn : homportOn s = { node := HouFn.wrapNode, savedNode := some s.node } := by
      simp [homportOn, h]
    refine ⟨hOn, ?_⟩
    rw [hOn]
    rfl
  · intro f h
    simp [homportOn, h]
  · intro f h
    simp [homportOff, h]
  · intro h
    simp [homportOff, h]
  · intro h
    obtain ⟨nf, sv⟩ := s
    replace h : sv = none := h
    subst h
    simp [homportOn, homportOff]

/-- C8, witness: starting from the unpatched state, `on()` then `off()`
restores `hou.node` to the host's original lookup and removes the saved
copy. -/
theorem c8_on_off_roundtrip_witness :
    homportOff (homportOn { node := HouFn.base, savedNode := none })
      = { node := HouFn.base, savedNode := none } :=
  (c8_on_off_roundtrip { node := HouFn.base, savedNode := none }
    (fun _ => none) "/obj").2.2.2.2 rfl

/-- C9: accessing `input_one` … `input_four` returns the wrapper itself with
its scratch index set to 0 … 3; the connection operators do not touch that
index, so after `a >> b.input_two` a later `c >> b` (through the same
wrapper state) still targets `b`'s second input, and `//` also returns the
right-hand wrapper with its index intact. -/
theorem c9_input_index_persistence (a b c : Wrap) :
    NodeWrap.getattr b "input_one"
      = (GetAttrResult.selfWrap { b with idx := 0 }, { b with idx := 0 }) ∧
    NodeWrap.getattr b "input_two"
      = (GetAttrResult.selfWrap { b with idx := 1 }, { b with idx := 1 }) ∧
    NodeWrap.getattr b "input_three"
      = (GetAttrResult.selfWrap { b with idx := 2 }, { b with idx := 2 }) ∧
    NodeWrap.getattr b "input_four"
      = (GetAttrResult.selfWrap { b with idx := 3 }, { b with idx := 3 }) ∧
    NodeWrap.rshift a (RhsObject.alreadyWrapped { b with idx := 1 })
      = Except.ok (a, { b with idx := 1 },
          [Effect.setInput b.node.id 1 (some a.node.id)]) ∧
    NodeWrap.rshift c (RhsObject.alreadyWrapped { b with idx := 1 })
      = Except.ok (c, { b with idx := 1 },
          [Effect.setInput b.node.id 1 (some c.node.id)]) ∧
    NodeWrap.lshift a (RhsObject.alreadyWrapped { b with idx := 1 })
      = Except.ok (a, { b with idx := 1 },
          [Effect.setInput a.node.id a.idx (some b.node.id)]) ∧
    (∀ conns res, NodeWrap.floordiv a { b with idx := 1 } conns
        = Except.ok res → res.2.1 = { b with idx := 1 }) := by
  refine ⟨rfl, rfl, rfl, rfl, rfl, rfl, rfl, ?_⟩
  intro conns res h
  unfold NodeWrap.floordiv at h
  split at h
  · cases h
    rfl
  · split at h
    · cases h
      rfl
    · split at h
      · exact Except.noConfusion h
      · cases h
        rfl

/-- C9, witness: disconnect with an empty connection list leaves the
right-hand wrapper state — index included — untouched. -/
theorem c9_input_index_persistence_witness :
    (({ node := sampleNodeA, idx := 0 } : Wrap),
      ({ node := sampleNodeB, idx := 1 } : Wrap),
      ([] : List Effect)).2.1 = ({ node := sampleNodeB, idx := 1 } : Wrap) :=
  (c9_input_index_persistence { node := sampleNodeA, idx := 0 }
    { node := sampleNodeB, idx := 0 }
    { node := sampleNodeA, idx := 0 }).2.2.2.2.2.2.2 []
    ({ node := sampleNodeA, idx := 0 }, { node := sampleNodeB, idx := 1 }, [])
    rfl

/-- C10: the left-shift operator on parameter wrappers and on
parameter-tuple wrappers raises `NotImplementedError` for every right-hand
operand, emitting no host call. -/
theorem c10_parm_lshift_not_implemented {A B : Type} (p : Parm)
    (t : ParmTuple) (x : A) (y : B) :
    ParmWrap.lshift p x = Except.error "NotImplementedError" ∧
    ParmTupleWrap.lshift t y = Except.error "NotImplementedError" :=
  ⟨rfl, rfl⟩
